import Mathlib

/-!
Verification of the forecast day-alignment resolver and forecast view builder
of the weather-widget repository.

The embedding follows `buildForecastCards` (src/unnamed/part_002, lines 84-214)
and its helpers `yyyyMmDdInZone`, `yyyyMmDdWithOffset`, `weatherCodeToIcon`;
the same logic appears inline in `renderUI` (src/script.js, lines 654-765).

Modelling conventions:
- An instant is an integer count of milliseconds since the Unix epoch
  (JavaScript `Date.getTime()`).  All instants appearing in the program are
  integral milliseconds.
- The Gregorian proleptic calendar conversion performed by the platform
  (`getUTCFullYear` / `getUTCMonth` / `getUTCDate`) is modelled by
  `civilFromDays`, a standard exact days-to-civil-date algorithm.
- An IANA timezone (as consulted through `Intl.DateTimeFormat` with the
  `timeZone` option) is modelled by a `Zone`: a validity flag (an invalid
  timezone name makes `Intl.DateTimeFormat` throw, which the source catches
  and turns into `null`) together with the zone's UTC offset in seconds as a
  function of the instant (this is exactly the information `Intl` uses to
  produce the zone-local calendar date).
- Browser-ambient behaviour (the local timezone offset, the
  `setDate(getDate() - 1)` "yesterday" arithmetic, parsing of
  `"YYYY-MM-DDT00:00:00"` as a local-time instant, and weekday label
  formatting) is collected in an `Env` record of explicit functions, so every
  theorem quantifies over the browser environment.
- JavaScript `null`/`undefined`/absence is `Option.none`; fallible helpers
  return `Option`.
-/

namespace WeatherWidget

/-- Days-since-epoch to (year, month, day) in the proleptic Gregorian
calendar; models the platform's `getUTCFullYear`/`getUTCMonth`/`getUTCDate`
field extraction.  `z` is days since 1970-01-01.  Lean's `Int` division is
Euclidean, i.e. floor division for the positive divisors used here. -/
def civilFromDays (z : Int) : Int × Int × Int :=
  let zz := z + 719468
  let era := zz / 146097
  let doe := zz - era * 146097
  let yoe := (doe - doe / 1460 + doe / 36524 - doe / 146096) / 365
  let y := yoe + era * 400
  let doy := doe - (365 * yoe + yoe / 4 - yoe / 100)
  let mp := (5 * doy + 2) / 153
  let d := doy - (153 * mp + 2) / 5 + 1
  let m := if mp < 10 then mp + 3 else mp - 9
  (y + (if m ≤ 2 then 1 else 0), m, d)

/-- Inverse of `civilFromDays`: (year, month, day) to days since 1970-01-01.
Used to model the platform's parsing of `"YYYY-MM-DDT00:00:00"` strings. -/
def daysFromCivil (y m d : Int) : Int :=
  let yy := y - (if m ≤ 2 then 1 else 0)
  let era := yy / 400
  let yoe := yy - era * 400
  let doy := (153 * (m + (if 2 < m then -3 else 9)) + 2) / 5 + d - 1
  let doe := yoe * 365 + yoe / 4 - yoe / 100 + doy
  era * 146097 + doe - 719468

/-- Two-digit zero padding; models `String(n).padStart(2, '0')` for the
month/day fields (always in 1..31 where used). -/
def pad2 (n : Int) : String :=
  if n < 10 then "0" ++ toString n else toString n

/-- The `YYYY-MM-DD` string of an instant's UTC calendar date; models the
template `` `${y}-${m}-${d}` `` built from `getUTC*` fields (source
`yyyyMmDdWithOffset`, part_002 lines 98-101). -/
def formatUTC (ms : Int) : String :=
  let c := civilFromDays (ms / 86400000)
  toString c.1 ++ "-" ++ pad2 c.2.1 ++ "-" ++ pad2 c.2.2

/-- Model of an IANA timezone as consulted via `Intl.DateTimeFormat`:
`valid = false` models an unrecognized timezone name (for which
`Intl.DateTimeFormat` throws); `offsetAt t` is the zone's UTC offset in
seconds at instant `t` (milliseconds). -/
structure Zone where
  valid : Bool
  offsetAt : Int → Int

/-- The ambient browser environment, passed explicitly:
`browserOffset t` is the browser-local UTC offset in seconds at instant `t`;
`yesterdayInstant now` models `const yesterday = new Date(now);
yesterday.setDate(now.getDate() - 1)` (local-calendar day decrement);
`parseLocalMidnight s` models `new Date(s + "T00:00:00")` (local-time
parse, `none` for an invalid date);
`weekdayShort tz inst` models the `Intl.DateTimeFormat` short weekday label
of the (possibly invalid, hence `Option`) instant in the given zone. -/
structure Env where
  browserOffset : Int → Int
  yesterdayInstant : Int → Int
  parseLocalMidnight : String → Option Int
  weekdayShort : Option Zone → Option Int → String

/-- Source `yyyyMmDdInZone(date, timeZone)` (part_002 lines 84-94): the
`YYYY-MM-DD` string of the instant as observed in the IANA zone, or `null`
when `Intl.DateTimeFormat` throws (invalid zone). -/
def yyyyMmDdInZone (date : Int) (tz : Zone) : Option String :=
  if tz.valid then some (formatUTC (date + tz.offsetAt date * 1000)) else none

/-- Source `yyyyMmDdWithOffset(now, utc_offset_seconds)` (part_002 lines
95-105): shift the instant by the offset and read the shifted instant's UTC
calendar fields. -/
def yyyyMmDdWithOffset (now : Int) (off : Int) : String :=
  formatUTC (now + off * 1000)

/-- The browser-local `YYYY-MM-DD` of an instant, models
`` `${now.getFullYear()}-${pad(now.getMonth()+1)}-${pad(now.getDate())}` ``
(part_002 lines 122-125). -/
def localYmd (env : Env) (t : Int) : String :=
  formatUTC (t + env.browserOffset t * 1000)

/-- The "today" string of `buildForecastCards` (part_002 lines 118-125):
IANA zone if present and its derivation succeeds, else UTC offset if
present, else browser-local fields. -/
def computeTodayStr (env : Env) (now : Int) (apiTz : Option Zone)
    (utcOff : Option Int) : String :=
  let viaZone : Option String := apiTz.bind (fun tz => yyyyMmDdInZone now tz)
  match viaZone with
  | some s => s
  | none =>
    match utcOff with
    | some off => yyyyMmDdWithOffset now off
    | none => localYmd env now

/-- The "yesterday" string of the off-by-one heuristic (part_002 lines
133-141).  Note the `if / else if / else` chain: when the zone is present
but invalid this is `null` (no fall-through to the offset), unlike the
today-string chain. -/
def yesterdayStrOpt (env : Env) (now : Int) (apiTz : Option Zone)
    (utcOff : Option Int) : Option String :=
  let y := env.yesterdayInstant now
  match apiTz with
  | some tz => yyyyMmDdInZone y tz
  | none =>
    match utcOff with
    | some off => some (yyyyMmDdWithOffset y off)
    | none => some (localYmd env y)

/-- The candidate re-derivation of part_002 lines 146-164: reinterpret a
date string as a local-midnight instant and re-derive its `YYYY-MM-DD` by
the declared timezone method.  An invalid parse gives an Invalid Date: with
an IANA zone `Intl` then throws (caught, `null`); in the offset and local
branches the NaN fields produce the string `"NaN-NaN-NaN"`. -/
def candidateStrFor (env : Env) (apiTz : Option Zone) (utcOff : Option Int)
    (dateStr : String) : Option String :=
  match env.parseLocalMidnight dateStr with
  | some inst =>
    match apiTz with
    | some tz => yyyyMmDdInZone inst tz
    | none =>
      match utcOff with
      | some off => some (yyyyMmDdWithOffset inst off)
      | none => some (localYmd env inst)
  | none =>
    match apiTz with
    | some _ => none
    | none => some "NaN-NaN-NaN"

/-- JavaScript `Array.prototype.findIndex`, with `none` for `-1`: the index
of the first element satisfying `p`. -/
def findIndex (p : α → Bool) : List α → Option Nat
  | [] => none
  | x :: xs => if p x then some 0 else (findIndex p xs).map (· + 1)

/-- The guard of the off-by-one heuristic (part_002 lines 131-142):
`times.length >= 2 && times[0] === yStr && times[1] === todayStr`
(`times[0] === null` is `false` in JavaScript, hence the `Option` equality
against `times[0]?`). -/
def heurCond (env : Env) (now : Int) (times : List String)
    (apiTz : Option Zone) (utcOff : Option Int) : Bool :=
  decide (2 ≤ times.length)
    && (times[0]? == yesterdayStrOpt env now apiTz utcOff)
    && (times[1]? == some (computeTodayStr env now apiTz utcOff))

/-- The day-alignment resolver: the start-index computation of
`buildForecastCards` (part_002 lines 118-167).  Step 1: exact scan for the
today string; step 4 (off-by-one heuristic); step 5 (per-candidate
re-derivation); final fallback `0`. -/
def resolveStartIndex (env : Env) (now : Int) (times : List String)
    (apiTz : Option Zone) (utcOff : Option Int) : Nat :=
  match findIndex (fun t => t == computeTodayStr env now apiTz utcOff) times with
  | some i => i
  | none =>
    if heurCond env now times apiTz utcOff then 1
    else
      match findIndex
          (fun t => candidateStrFor env apiTz utcOff t
            == some (computeTodayStr env now apiTz utcOff)) times with
      | some i => i
      | none => 0

/-- The resolver reached its final fallback: every step of the chain failed
(the code's `startIdx === -1` state at part_002 line 167). -/
def resolveDegraded (env : Env) (now : Int) (times : List String)
    (apiTz : Option Zone) (utcOff : Option Int) : Bool :=
  (findIndex (fun t => t == computeTodayStr env now apiTz utcOff) times).isNone
    && !(heurCond env now times apiTz utcOff)
    && (findIndex
        (fun t => candidateStrFor env apiTz utcOff t
          == some (computeTodayStr env now apiTz utcOff)) times).isNone

/-- The resolver with the off-by-one heuristic branch (part_002 lines
131-143) removed; used to settle the dead-branch claim. -/
def resolveStartIndexNoHeur (env : Env) (now : Int) (times : List String)
    (apiTz : Option Zone) (utcOff : Option Int) : Nat :=
  match findIndex (fun t => t == computeTodayStr env now apiTz utcOff) times with
  | some i => i
  | none =>
    match findIndex
        (fun t => candidateStrFor env apiTz utcOff t
          == some (computeTodayStr env now apiTz utcOff)) times with
    | some i => i
    | none => 0

/-- Source `weatherCodeToIcon(code, isDay = true)` (part_002 lines 70-81).
`code` is `null` (`none`) when absent; in JavaScript `null === 0` and
`[..].includes(null)` are false, so `null` falls through every branch to the
final default `⛅` ("partly cloudy"), as does any unlisted code. -/
def weatherCodeToIcon (code : Option Int) (isDay : Bool) : String :=
  if code = some 0 then (if isDay then "☀️" else "🌙")
  else if code = some 1 ∨ code = some 2 then "⛅"
  else if code = some 3 then "☁️"
  else if code = some 45 ∨ code = some 48 then "🌫️"
  else if code = some 51 ∨ code = some 53 ∨ code = some 55 ∨ code = some 56 ∨ code = some 57 then "🌦️"
  else if code = some 61 ∨ code = some 63 ∨ code = some 65 ∨ code = some 66 ∨ code = some 67 then "🌧️"
  else if code = some 71 ∨ code = some 73 ∨ code = some 75 ∨ code = some 77 ∨ code = some 85 ∨ code = some 86 then "🌨️"
  else if code = some 80 ∨ code = some 81 ∨ code = some 82 then "🌧️"
  else if code = some 95 ∨ code = some 96 ∨ code = some 99 then "⛈️"
  else "⛅"

/-- The weather codes named by some branch of `weatherCodeToIcon`; a code
outside this list reaches the final default return. -/
def recognizedCode (c : Int) : Bool :=
  c ∈ ([0, 1, 2, 3, 45, 48, 51, 53, 55, 56, 57, 61, 63, 65, 66, 67,
        71, 73, 75, 77, 85, 86, 80, 81, 82, 95, 96, 99] : List Int)

/-- JavaScript `Math.round` on a finite value: round half toward positive
infinity, i.e. the floor of `q + 1/2`, computed on the rational's numerator
and denominator (for the positive denominator, `Int` division is floor
division). -/
def jsRound (q : ℚ) : Int := (2 * q.num + q.den) / (2 * (q.den : Int))

/-- The `daily` payload consumed by `buildForecastCards`: `time` is the
array of `YYYY-MM-DD` strings (absent when the payload is malformed); the
parallel per-day arrays may be absent, and their entries may be `null`. -/
structure DailySeries where
  time : Option (List String)
  temperature_2m_max : Option (List (Option ℚ))
  temperature_2m_min : Option (List (Option ℚ))
  weathercode : Option (List (Option Int))
deriving DecidableEq

/-- The high-temperature value read at an index, models
`(dailyData.temperature_2m_max && dailyData.temperature_2m_max[idx] != null)
? dailyData.temperature_2m_max[idx] : absent` (part_002 line 193). -/
def highValAt (s : DailySeries) (idx : Nat) : Option ℚ :=
  match s.temperature_2m_max with
  | none => none
  | some arr => (arr[idx]?).getD none

/-- The low-temperature value read at an index (part_002 line 194). -/
def lowValAt (s : DailySeries) (idx : Nat) : Option ℚ :=
  match s.temperature_2m_min with
  | none => none
  | some arr => (arr[idx]?).getD none

/-- The weather code read at an index, models
`(dailyData.weathercode && dailyData.weathercode[idx] != null)
? dailyData.weathercode[idx] : null` (part_002 line 195). -/
def codeAt (s : DailySeries) (idx : Nat) : Option Int :=
  match s.weathercode with
  | none => none
  | some arr => (arr[idx]?).getD none

/-- One emitted day summary (one forecast card, part_002 lines 185-205):
`hi`/`lo` are the rounded temperatures, `none` standing for the rendered
unknown marker `—`. -/
structure Card where
  label : String
  icon : String
  hi : Option Int
  lo : Option Int
deriving DecidableEq

/-- Construction of the card at absolute index `idx` for a window starting
at `startIdx` (part_002 lines 183-205): label `Today` when `idx ===
startIdx`, otherwise the short weekday name of `new Date(dayIso +
"T00:00:00")` in the API zone (or browser-local). -/
def mkCard (env : Env) (apiTz : Option Zone) (s : DailySeries)
    (startIdx idx : Nat) : Card :=
  let dayIso := ((s.time.getD [])[idx]?).getD ""
  { label :=
      if idx = startIdx then "Today"
      else env.weekdayShort apiTz (env.parseLocalMidnight dayIso)
    icon := weatherCodeToIcon (codeAt s idx) true
    hi := (highValAt s idx).map jsRound
    lo := (lowValAt s idx).map jsRound }

/-- The card-emission loop of part_002 lines 182-213:
`for (let i = 0; i < maxCards; i++) { const idx = startIdx + i;
if (!times[idx]) break; ... }`.  The loop stops at the first absent or
falsy (empty-string) entry.  First argument of the recursion is the
remaining iteration budget, second is `i`. -/
def buildCardsAux (env : Env) (apiTz : Option Zone) (s : DailySeries)
    (startIdx : Nat) : Nat → Nat → List Card
  | 0, _ => []
  | fuel + 1, i =>
    if ((s.time.getD [])[startIdx + i]?).getD "" = "" then []
    else mkCard env apiTz s startIdx (startIdx + i)
          :: buildCardsAux env apiTz s startIdx fuel (i + 1)

/-- The spec's `buildWindow(series, startIndex, maxDays)`: the bounded
day-summary emission of `buildForecastCards`. -/
def buildWindow (env : Env) (apiTz : Option Zone) (s : DailySeries)
    (startIdx maxDays : Nat) : List Card :=
  buildCardsAux env apiTz s startIdx maxDays 0

/-- The rendering target (the forecast container DOM node) as the builder
sees it: the memoization flags `_built`, `_startIdx`, `_len` (part_002
lines 171-176) and the list of currently attached cards. -/
structure Target where
  built : Bool
  startIdx : Nat
  len : Nat
  cards : List Card
deriving DecidableEq

/-- Source `buildForecastCards(container, dailyData, apiTz, utcOffsetSeconds)`
(part_002 lines 108-214), with the current instant made explicit.  Early
return when the payload or its `time` array is missing; resolve the start
index; skip the rebuild when `(_built, _startIdx, _len)` match; otherwise
clear the container and emit up to `maxCards = 4` cards. -/
def buildForecastCards (env : Env) (now : Int) (dailyData : Option DailySeries)
    (apiTz : Option Zone) (utcOff : Option Int) (t : Target) : Target :=
  match dailyData with
  | none => t
  | some s =>
    match s.time with
    | none => t
    | some times =>
      if t.built = true
          ∧ t.startIdx = resolveStartIndex env now times apiTz utcOff
          ∧ t.len = times.length then t
      else
        { built := true
          startIdx := resolveStartIndex env now times apiTz utcOff
          len := times.length
          cards := buildWindow env apiTz s
            (resolveStartIndex env now times apiTz utcOff) 4 }

/-! ### Concrete instances used by witnesses

`parseYmdUtc` parses `"YYYY-MM-DD"` into the epoch milliseconds of its UTC
midnight; `envUTC` is a browser running in the UTC timezone whose
`new Date(s + "T00:00:00")` therefore parses at UTC midnight, and whose
`setDate(getDate() - 1)` subtracts exactly one day (UTC has no DST). -/

/-- Accumulator loop of `digitsToNat?`. -/
def digitsGo : List Char → Nat → Option Nat
  | [], acc => some acc
  | c :: rest, acc =>
    if '0' ≤ c ∧ c ≤ '9' then digitsGo rest (acc * 10 + (c.toNat - 48))
    else none

/-- Read a non-empty all-digit character list as a natural number. -/
def digitsToNat? : List Char → Option Nat
  | [] => none
  | cs => digitsGo cs 0

/-- Split a character list on the dash character. -/
def splitDash : List Char → List (List Char)
  | [] => [[]]
  | c :: rest =>
    if c = '-' then [] :: splitDash rest
    else
      match splitDash rest with
      | [] => [[c]]
      | g :: gs => (c :: g) :: gs

/-- Parse a `YYYY-MM-DD` string to the epoch milliseconds of its UTC
midnight. -/
def parseYmdUtc (s : String) : Option Int :=
  match splitDash s.toList with
  | [ys, ms, ds] =>
    match digitsToNat? ys, digitsToNat? ms, digitsToNat? ds with
    | some y, some m, some d => some (daysFromCivil y m d * 86400000)
    | _, _, _ => none
  | _ => none

/-- A concrete browser environment: UTC-local browser. -/
def envUTC : Env :=
  { browserOffset := fun _ => 0
    yesterdayInstant := fun t => t - 86400000
    parseLocalMidnight := parseYmdUtc
    weekdayShort := fun _ _ => "Sun" }

/-- Pacific/Honolulu: fixed UTC-10, no daylight saving. -/
def honolulu : Zone := { valid := true, offsetAt := fun _ => -36000 }

/-- Pacific/Kiritimati: fixed UTC+14, no daylight saving. -/
def kiritimati : Zone := { valid := true, offsetAt := fun _ => 50400 }

/-- A ten-day series (2024-06-01 .. 2024-06-10) with full parallel data. -/
def series10 : DailySeries :=
  { time := some ["2024-06-01", "2024-06-02", "2024-06-03", "2024-06-04", "2024-06-05",
                  "2024-06-06", "2024-06-07", "2024-06-08", "2024-06-09", "2024-06-10"]
    temperature_2m_max := some [some 70, some 71, some 72, some 73, some 74,
                                some 75, some 76, some 77, some 78, some 79]
    temperature_2m_min := some [some 60, some 61, some 62, some 63, some 64,
                                some 65, some 66, some 67, some 68, some 69]
    weathercode := some [some 0, some 1, some 2, some 3, some 45,
                         some 61, some 71, some 80, some 95, some 2] }

/-- A two-day series with a `null` high temperature and an unrecognized
weather code at index 0. -/
def seriesMissing : DailySeries :=
  { time := some ["2024-06-01", "2024-06-02"]
    temperature_2m_max := some [none, some 70]
    temperature_2m_min := some [some 60, none]
    weathercode := some [some 1000, some 2] }

/-- The card the builder emits at window position 0 of `seriesMissing`. -/
def cardMissing : Card :=
  { label := "Today", icon := "⛅", hi := none, lo := some 60 }

/-- Series with warm data, same dates as `seriesCool`. -/
def seriesWarm : DailySeries :=
  { time := some ["2024-06-01", "2024-06-02"]
    temperature_2m_max := some [some 90, some 91]
    temperature_2m_min := some [some 70, some 71]
    weathercode := some [some 0, some 0] }

/-- Series with cool data, same dates as `seriesWarm` but deeply different
per-day values. -/
def seriesCool : DailySeries :=
  { time := some ["2024-06-01", "2024-06-02"]
    temperature_2m_max := some [some 50, some 51]
    temperature_2m_min := some [some 40, some 41]
    weathercode := some [some 61, some 63] }

/-- A series whose `time` array is empty. -/
def emptySeries : DailySeries :=
  { time := some [], temperature_2m_max := none, temperature_2m_min := none,
    weathercode := none }

/-- A series whose `time` array is missing entirely. -/
def noTimeSeries : DailySeries :=
  { time := none, temperature_2m_max := none, temperature_2m_min := none,
    weathercode := none }

/-- A fresh rendering target (no memoization flags set, no cards). -/
def freshTarget : Target :=
  { built := false, startIdx := 0, len := 0, cards := [] }

/-! ### Helper lemmas -/

theorem findIndex_eq_none_iff {α : Type} {p : α → Bool} {l : List α} :
    findIndex p l = none ↔ ∀ x ∈ l, p x = false := by
  induction l with
  | nil => simp [findIndex]
  | cons a t ih =>
    by_cases h : p a = true
    · simp [findIndex, h]
    · rw [Bool.not_eq_true] at h
      simp [findIndex, h, ih]

theorem findIndex_lt_length {α : Type} {p : α → Bool} {l : List α} {i : Nat}
    (h : findIndex p l = some i) : i < l.length := by
  induction l generalizing i with
  | nil => simp [findIndex] at h
  | cons a t ih =>
    by_cases hp : p a = true
    · simp only [findIndex, hp, if_true, Option.some.injEq] at h
      subst h
      simp
    · rw [Bool.not_eq_true] at hp
      simp only [findIndex, hp, Bool.false_eq_true, if_false, Option.map_eq_some'] at h
      obtain ⟨k, hk, rfl⟩ := h
      have := ih hk
      simp only [List.length_cons]
      omega

theorem findIndex_eq_some_first {α : Type} {p : α → Bool} {l : List α} {i : Nat} {x : α}
    (hx : l[i]? = some x) (hpx : p x = true)
    (hmin : ∀ j, j < i → ∀ y, l[j]? = some y → p y = false) :
    findIndex p l = some i := by
  induction l generalizing i with
  | nil => simp at hx
  | cons a t ih =>
    cases i with
    | zero =>
      simp only [List.getElem?_cons_zero, Option.some.injEq] at hx
      subst hx
      simp [findIndex, hpx]
    | succ k =>
      have ha : p a = false := hmin 0 (Nat.succ_pos k) a (by simp)
      simp only [List.getElem?_cons_succ] at hx
      have ht : findIndex p t = some k := by
        refine ih hx ?_
        intro j hj y hy
        exact hmin (j + 1) (by omega) y (by simpa using hy)
      simp [findIndex, ha, ht]

/-- Shared first-exact-match property of the resolver: when some entry
equals the computed today string, the resolver returns the first such
index. -/
theorem resolve_first_match_aux (env : Env) (now : Int) (times : List String)
    (apiTz : Option Zone) (utcOff : Option Int) (i : Nat)
    (hx : times[i]? = some (computeTodayStr env now apiTz utcOff))
    (hmin : ∀ j, j < i → times[j]? ≠ some (computeTodayStr env now apiTz utcOff)) :
    resolveStartIndex env now times apiTz utcOff = i := by
  have hf : findIndex (fun t => t == computeTodayStr env now apiTz utcOff) times = some i := by
    refine findIndex_eq_some_first hx (by simp) ?_
    intro j hj y hy
    rw [beq_eq_false_iff_ne]
    intro he
    exact hmin j hj (he ▸ hy)
  unfold resolveStartIndex
  rw [hf]

/-- Length of the emission loop: with well-formed (non-empty-string) date
entries, the loop emits `min fuel (length - (startIdx + i))` cards. -/
theorem buildCardsAux_length (env : Env) (apiTz : Option Zone)
    (s : DailySeries) (times : List String) (ht : s.time = some times)
    (hne : ∀ x ∈ times, x ≠ "") (startIdx : Nat) :
    ∀ fuel i, (buildCardsAux env apiTz s startIdx fuel i).length
      = min fuel (times.length - (startIdx + i)) := by
  intro fuel
  induction fuel with
  | zero => intro i; simp [buildCardsAux]
  | succ n ih =>
    intro i
    rw [buildCardsAux, ht, Option.getD_some]
    cases hg : times[startIdx + i]? with
    | none =>
      have hle : times.length ≤ startIdx + i := List.getElem?_eq_none_iff.mp hg
      rw [Option.getD_none, if_pos rfl]
      simp only [List.length_nil]
      omega
    | some dstr =>
      have hmem : dstr ∈ times := List.getElem?_mem hg
      have hlt : startIdx + i < times.length := by
        rcases List.getElem?_eq_some_iff.mp hg with ⟨hw, _⟩
        exact hw
      rw [Option.getD_some, if_neg (hne dstr hmem)]
      simp only [List.length_cons, ih (i + 1)]
      omega

/-- Every emitted card is the `mkCard` of its absolute index. -/
theorem buildCardsAux_getElem (env : Env) (apiTz : Option Zone)
    (s : DailySeries) (startIdx : Nat) :
    ∀ fuel i j card, (buildCardsAux env apiTz s startIdx fuel i)[j]? = some card →
      card = mkCard env apiTz s startIdx (startIdx + i + j) := by
  intro fuel
  induction fuel with
  | zero => intro i j card h; simp [buildCardsAux] at h
  | succ n ih =>
    intro i j card h
    rw [buildCardsAux] at h
    cases hg : (s.time.getD [])[startIdx + i]? with
    | none =>
      rw [hg, Option.getD_none, if_pos rfl] at h
      simp at h
    | some dstr =>
      rw [hg, Option.getD_some] at h
      by_cases he : dstr = ""
      · rw [if_pos he] at h; simp at h
      · rw [if_neg he] at h
        cases j with
        | zero =>
          simp only [List.getElem?_cons_zero, Option.some.injEq] at h
          rw [Nat.add_zero]
          exact h.symm
        | succ k =>
          simp only [List.getElem?_cons_succ] at h
          have hk := ih (i + 1) k card h
          have harg : startIdx + (i + 1) + k = startIdx + i + (k + 1) := by omega
          rw [harg] at hk
          exact hk

/-- An unrecognized weather code reaches the final default branch. -/
theorem weatherCodeToIcon_default (c : Int) (isDay : Bool)
    (h : recognizedCode c = false) :
    weatherCodeToIcon (some c) isDay = "⛅" := by
  have hne : ¬ (c = 0 ∨ c = 1 ∨ c = 2 ∨ c = 3 ∨ c = 45 ∨ c = 48 ∨ c = 51 ∨ c = 53
      ∨ c = 55 ∨ c = 56 ∨ c = 57 ∨ c = 61 ∨ c = 63 ∨ c = 65 ∨ c = 66 ∨ c = 67
      ∨ c = 71 ∨ c = 73 ∨ c = 75 ∨ c = 77 ∨ c = 85 ∨ c = 86 ∨ c = 80 ∨ c = 81
      ∨ c = 82 ∨ c = 95 ∨ c = 96 ∨ c = 99) := by
    simpa [recognizedCode] using h
  push_neg at hne
  obtain ⟨n0, n1, n2, n3, n45, n48, n51, n53, n55, n56, n57, n61, n63, n65, n66, n67,
    n71, n73, n75, n77, n85, n86, n80, n81, n82, n95, n96, n99⟩ := hne
  simp only [weatherCodeToIcon, Option.some.injEq]
  rw [if_neg n0, if_neg (by tauto), if_neg n3, if_neg (by tauto), if_neg (by tauto),
    if_neg (by tauto), if_neg (by tauto), if_neg (by tauto), if_neg (by tauto)]

/-! ### Claim theorems -/

/-- C1: For every series and reference instant, if some entry `dates[i]`
equals the "today" string computed by the declared timezone method (IANA
zone if present, else UTC offset, else browser-local fields), the resolver
returns exactly the first such index `i`. -/
theorem C1_resolveStartIndex_exact_match (env : Env) (now : Int)
    (times : List String) (apiTz : Option Zone) (utcOff : Option Int) (i : Nat)
    (hx : times[i]? = some (computeTodayStr env now apiTz utcOff))
    (hmin : ∀ j, j < i → times[j]? ≠ some (computeTodayStr env now apiTz utcOff)) :
    resolveStartIndex env now times apiTz utcOff = i :=
  resolve_first_match_aux env now times apiTz utcOff i hx hmin

/-- Witness for C1: browser in UTC, offset 0 declared, reference instant
2024-06-01T12:00:00Z; today "2024-06-01" sits at index 0 and the resolver
returns 0. -/
theorem C1_witness :
    (["2024-06-01", "2024-06-02"] : List String)[0]?
        = some (computeTodayStr envUTC 1717243200000 none (some 0))
    ∧ resolveStartIndex envUTC 1717243200000 ["2024-06-01", "2024-06-02"]
        none (some 0) = 0 :=
  ⟨by decide,
   C1_resolveStartIndex_exact_match envUTC 1717243200000 ["2024-06-01", "2024-06-02"]
     none (some 0) 0 (by decide) (fun j hj => absurd hj (Nat.not_lt_zero j))⟩

/-- C2: For a series whose dates array is empty or missing, the resolver
yields start index 0 and the builder emits an empty window; the embedding
is a total function, so no exception occurs. -/
theorem C2_empty_or_missing_series (env : Env) (now : Int)
    (apiTz : Option Zone) (utcOff : Option Int)
    (s sMissing : DailySeries) (t : Target)
    (hs : s.time = some []) (hm : sMissing.time = none) :
    resolveStartIndex env now [] apiTz utcOff = 0
    ∧ buildWindow env apiTz s 0 4 = []
    ∧ buildForecastCards env now (some sMissing) apiTz utcOff t = t
    ∧ buildForecastCards env now none apiTz utcOff t = t := by
  refine ⟨rfl, ?_, ?_, rfl⟩
  · rw [buildWindow, buildCardsAux, hs, Option.getD_some]
    rfl
  · simp [buildForecastCards, hm]

/-- Witness for C2 on the concrete empty and missing series. -/
theorem C2_witness :
    emptySeries.time = some [] ∧ noTimeSeries.time = none
    ∧ (resolveStartIndex envUTC 0 [] none none = 0
       ∧ buildWindow envUTC none emptySeries 0 4 = []
       ∧ buildForecastCards envUTC 0 (some noTimeSeries) none none freshTarget
           = freshTarget
       ∧ buildForecastCards envUTC 0 none none none freshTarget = freshTarget) :=
  ⟨rfl, rfl,
   C2_empty_or_missing_series envUTC 0 none none emptySeries noTimeSeries
     freshTarget rfl rfl⟩

/-- C3: For every non-empty series the resolver returns a valid index
(< length); when every step of the fallback chain fails (`resolveDegraded`
is true, flagging the degraded case) it returns 0. -/
theorem C3_resolveStartIndex_valid (env : Env) (now : Int)
    (times : List String) (apiTz : Option Zone) (utcOff : Option Int)
    (h : 0 < times.length) :
    resolveStartIndex env now times apiTz utcOff < times.length
    ∧ (resolveDegraded env now times apiTz utcOff = true →
        resolveStartIndex env now times apiTz utcOff = 0) := by
  constructor
  · unfold resolveStartIndex
    cases hf : findIndex (fun t => t == computeTodayStr env now apiTz utcOff) times with
    | some i => exact findIndex_lt_length hf
    | none =>
      by_cases hc : heurCond env now times apiTz utcOff = true
      · rw [if_pos hc]
        have h2 : 2 ≤ times.length := by
          unfold heurCond at hc
          simp only [Bool.and_eq_true, decide_eq_true_eq] at hc
          exact hc.1.1
        show 1 < times.length
        omega
      · rw [if_neg hc]
        cases hg : findIndex
            (fun t => candidateStrFor env apiTz utcOff t
              == some (computeTodayStr env now apiTz utcOff)) times with
        | some i => exact findIndex_lt_length hg
        | none => exact h
  · intro hd
    unfold resolveDegraded at hd
    simp only [Bool.and_eq_true, Option.isNone_iff_eq_none, Bool.not_eq_true'] at hd
    obtain ⟨⟨hf1, hc⟩, hf2⟩ := hd
    simp [resolveStartIndex, hf1, hc, hf2]

/-- Witness for C3: a consistent Kiritimati payload observed from a UTC
browser at 2024-06-01T12:00:00Z whose window omits the zone-local today
(2024-06-02); every chain step fails and the resolver returns 0, a valid
index. -/
theorem C3_witness :
    0 < (["2024-05-31", "2024-06-01"] : List String).length
    ∧ resolveStartIndex envUTC 1717243200000 ["2024-05-31", "2024-06-01"]
        (some kiritimati) (some 50400)
        < (["2024-05-31", "2024-06-01"] : List String).length
    ∧ resolveDegraded envUTC 1717243200000 ["2024-05-31", "2024-06-01"]
        (some kiritimati) (some 50400) = true
    ∧ resolveStartIndex envUTC 1717243200000 ["2024-05-31", "2024-06-01"]
        (some kiritimati) (some 50400) = 0 :=
  ⟨by decide,
   (C3_resolveStartIndex_valid envUTC 1717243200000 ["2024-05-31", "2024-06-01"]
     (some kiritimati) (some 50400) (by decide)).1,
   by decide,
   (C3_resolveStartIndex_valid envUTC 1717243200000 ["2024-05-31", "2024-06-01"]
     (some kiritimati) (some 50400) (by decide)).2 (by decide)⟩

/-- C4: With dates 2024-03-14 .. 2024-03-17 and the declared timezone
method resolving "today" to "2024-03-15" (so there is no exact match at
index 0), the resolver returns index 1. -/
theorem C4_offByOne_dates (env : Env) (now : Int) (apiTz : Option Zone)
    (utcOff : Option Int)
    (h : computeTodayStr env now apiTz utcOff = "2024-03-15") :
    resolveStartIndex env now
        ["2024-03-14", "2024-03-15", "2024-03-16", "2024-03-17"] apiTz utcOff = 1
    ∧ (["2024-03-14", "2024-03-15", "2024-03-16", "2024-03-17"] :
        List String)[0]? ≠ some (computeTodayStr env now apiTz utcOff) := by
  constructor
  · unfold resolveStartIndex
    rw [h]
    rfl
  · rw [h]
    decide

/-- Witness for C4: UTC browser, offset 0, instant 2024-03-15T12:00:00Z. -/
theorem C4_witness :
    computeTodayStr envUTC 1710504000000 none (some 0) = "2024-03-15"
    ∧ resolveStartIndex envUTC 1710504000000
        ["2024-03-14", "2024-03-15", "2024-03-16", "2024-03-17"] none (some 0) = 1 :=
  ⟨by decide,
   (C4_offByOne_dates envUTC 1710504000000 none (some 0) (by decide)).1⟩

/-- C5: For reference instant 2024-06-01T02:00:00Z (epoch ms
1717207200000) with declared IANA timezone Pacific/Honolulu (UTC-10), the
resolved "today" string is "2024-05-31", not "2024-06-01" — for every
browser environment and regardless of any UTC offset also present. -/
theorem C5_honolulu_today (env : Env) (utcOff : Option Int) :
    computeTodayStr env 1717207200000 (some honolulu) utcOff = "2024-05-31"
    ∧ computeTodayStr env 1717207200000 (some honolulu) utcOff ≠ "2024-06-01" := by
  constructor
  · rfl
  · have h1 : computeTodayStr env 1717207200000 (some honolulu) utcOff
        = "2024-05-31" := rfl
    rw [h1]
    decide

/-- C6: For every series with well-formed date entries and every start
index, the builder emits exactly `min maxDays (length - startIndex)` day
summaries, and every index it reads lies below the series length. -/
theorem C6_buildWindow_bounded (env : Env) (apiTz : Option Zone)
    (s : DailySeries) (times : List String) (startIdx maxDays : Nat)
    (ht : s.time = some times) (hne : ∀ x ∈ times, x ≠ "") :
    (buildWindow env apiTz s startIdx maxDays).length
        = min maxDays (times.length - startIdx)
    ∧ ∀ j, j < (buildWindow env apiTz s startIdx maxDays).length →
        startIdx + j < times.length := by
  have hlen := buildCardsAux_length env apiTz s times ht hne startIdx maxDays 0
  rw [Nat.add_zero] at hlen
  refine ⟨hlen, ?_⟩
  intro j hj
  rw [buildWindow] at hj
  rw [hlen] at hj
  omega

/-- Witness for C6: `maxDays = 4`, a series of length 10, `startIndex = 7`:
exactly 3 entries. -/
theorem C6_witness :
    (buildWindow envUTC none series10 7 4).length = 3 :=
  (C6_buildWindow_bounded envUTC none series10
    ["2024-06-01", "2024-06-02", "2024-06-03", "2024-06-04", "2024-06-05",
     "2024-06-06", "2024-06-07", "2024-06-08", "2024-06-09", "2024-06-10"]
    7 4 rfl (by decide)).1

/-- C7: A second builder invocation whose resolved start index and series
length equal the previous invocation's leaves the rendering target exactly
unchanged — the memoization is keyed on (startIndex, series.length) only,
so the per-day data of the second series may differ arbitrarily. -/
theorem C7_buildForecastCards_memoized (env : Env) (now : Int)
    (apiTz : Option Zone) (utcOff : Option Int)
    (s1 s2 : DailySeries) (times1 times2 : List String) (t : Target)
    (h1 : s1.time = some times1) (h2 : s2.time = some times2)
    (hres : resolveStartIndex env now times2 apiTz utcOff
          = resolveStartIndex env now times1 apiTz utcOff)
    (hlen : times2.length = times1.length) :
    buildForecastCards env now (some s2) apiTz utcOff
        (buildForecastCards env now (some s1) apiTz utcOff t)
      = buildForecastCards env now (some s1) apiTz utcOff t := by
  simp only [buildForecastCards, h1, h2]
  rw [hres, hlen]
  by_cases hc : t.built = true
      ∧ t.startIdx = resolveStartIndex env now times1 apiTz utcOff
      ∧ t.len = times1.length
  · rw [if_pos hc, if_pos hc]
  · rw [if_neg hc, if_pos ⟨rfl, rfl, rfl⟩]

/-- Witness for C7: same dates, deeply different per-day data; the second
build is the identity on the target produced by the first. -/
theorem C7_witness :
    buildForecastCards envUTC 1717243200000 (some seriesCool) none (some 0)
        (buildForecastCards envUTC 1717243200000 (some seriesWarm) none (some 0)
          freshTarget)
      = buildForecastCards envUTC 1717243200000 (some seriesWarm) none (some 0)
          freshTarget :=
  C7_buildForecastCards_memoized envUTC 1717243200000 none (some 0)
    seriesWarm seriesCool ["2024-06-01", "2024-06-02"] ["2024-06-01", "2024-06-02"]
    freshTarget rfl rfl rfl rfl

/-- C8: Every emitted day summary renders a missing (`null` or absent)
high/low temperature as the explicit unknown marker `none` (the dash, never
a number such as 0), and an absent or unrecognized weather code maps to the
default partly-cloudy icon, never an error. -/
theorem C8_missing_fields (env : Env) (apiTz : Option Zone)
    (s : DailySeries) (startIdx j : Nat) (card : Card)
    (hc : (buildWindow env apiTz s startIdx 4)[j]? = some card) :
    (highValAt s (startIdx + j) = none → card.hi = none)
    ∧ (lowValAt s (startIdx + j) = none → card.lo = none)
    ∧ (codeAt s (startIdx + j) = none → card.icon = "⛅")
    ∧ (∀ c : Int, codeAt s (startIdx + j) = some c → recognizedCode c = false →
        card.icon = "⛅") := by
  have hcard : card = mkCard env apiTz s startIdx (startIdx + j) := by
    have h0 := buildCardsAux_getElem env apiTz s startIdx 4 0 j card hc
    simpa using h0
  subst hcard
  refine ⟨?_, ?_, ?_, ?_⟩
  · intro h
    simp [mkCard, h]
  · intro h
    simp [mkCard, h]
  · intro h
    simp only [mkCard]
    rw [h]
    decide
  · intro c hcode hrec
    simp only [mkCard]
    rw [hcode]
    exact weatherCodeToIcon_default c true hrec

/-- Witness for C8: `seriesMissing` has a `null` high and the unrecognized
code 1000 at index 0; the emitted card carries the unknown marker and the
default icon. -/
theorem C8_witness :
    (buildWindow envUTC none seriesMissing 0 4)[0]? = some cardMissing
    ∧ highValAt seriesMissing 0 = none
    ∧ cardMissing.hi = none
    ∧ codeAt seriesMissing 0 = some 1000
    ∧ recognizedCode 1000 = false
    ∧ cardMissing.icon = "⛅" :=
  ⟨by decide, by decide,
   (C8_missing_fields envUTC none seriesMissing 0 0 cardMissing (by decide)).1
     (by decide),
   by decide, by decide,
   (C8_missing_fields envUTC none seriesMissing 0 0 cardMissing (by decide)).2.2.2
     1000 (by decide) (by decide)⟩

/-- C9 counterexample: a valid IANA zone is present (Pacific/Kiritimati,
observed at 2024-06-01T12:00:00Z so the zone-local today is 2024-06-02),
the step-1 scan of the dates finds no match, and a UTC offset is available
whose derived today string "2024-06-01" occurs first at index 1 — yet the
resolver returns 0: after a failed scan with a successfully derived IANA
date it never re-derives today from the UTC offset, contrary to the claim. -/
theorem C9_counterexample :
    kiritimati.valid = true
    ∧ findIndex
        (fun t => t == computeTodayStr envUTC 1717243200000 (some kiritimati) (some 0))
        ["2024-05-31", "2024-06-01"] = none
    ∧ findIndex (fun t => t == yyyyMmDdWithOffset 1717243200000 0)
        ["2024-05-31", "2024-06-01"] = some 1
    ∧ resolveStartIndex envUTC 1717243200000 ["2024-05-31", "2024-06-01"]
        (some kiritimati) (some 0) = 0 := by
  refine ⟨rfl, by decide, by decide, by decide⟩

/-- C9 (amended): the UTC-offset derivation of "today" applies when the
IANA timezone is absent or its derivation fails (yields null) — not after a
failed step-1 scan with a successfully derived IANA date string.  In that
applicable case the resolver derives today by shifting the reference
instant by the offset, reading the shifted instant's UTC fields, and
returns the first index of `series.dates` equal to that string. -/
theorem C9_offset_fallback (env : Env) (now : Int) (times : List String)
    (off : Int) (apiTz : Option Zone)
    (hz : apiTz = none ∨ ∃ tz, apiTz = some tz ∧ tz.valid = false)
    (i : Nat)
    (hx : times[i]? = some (yyyyMmDdWithOffset now off))
    (hmin : ∀ j, j < i → times[j]? ≠ some (yyyyMmDdWithOffset now off)) :
    computeTodayStr env now apiTz (some off) = yyyyMmDdWithOffset now off
    ∧ resolveStartIndex env now times apiTz (some off) = i := by
  have htoday : computeTodayStr env now apiTz (some off)
      = yyyyMmDdWithOffset now off := by
    rcases hz with h | ⟨tz, htz, hv⟩
    · subst h
      rfl
    · subst htz
      simp [computeTodayStr, yyyyMmDdInZone, hv]
  refine ⟨htoday, ?_⟩
  exact resolve_first_match_aux env now times apiTz (some off) i
    (by rw [htoday]; exact hx)
    (by intro j hj; rw [htoday]; exact hmin j hj)

/-- Witness for the amended C9: no IANA zone, offset 0, instant
2024-06-01T12:00:00Z; the offset-derived today "2024-06-01" sits at index 1
after a non-matching entry, and the resolver returns 1. -/
theorem C9_witness :
    resolveStartIndex envUTC 1717243200000 ["2024-05-31", "2024-06-01"]
        none (some 0) = 1 :=
  (C9_offset_fallback envUTC 1717243200000 ["2024-05-31", "2024-06-01"] 0 none
    (Or.inl rfl) 1 (by decide)
    (by intro j hj
        have hj0 : j = 0 := by omega
        subst hj0
        decide)).2

/-- C10: The off-by-one heuristic branch is unreachable: whenever the
exact scan fails, the heuristic's requirement that `dates[1]` equal the
today string is necessarily false, so the resolver with the branch removed
is extensionally equal to the full resolver. -/
theorem C10_heuristic_unreachable (env : Env) (now : Int)
    (times : List String) (apiTz : Option Zone) (utcOff : Option Int) :
    resolveStartIndexNoHeur env now times apiTz utcOff
      = resolveStartIndex env now times apiTz utcOff := by
  unfold resolveStartIndex resolveStartIndexNoHeur
  cases hf : findIndex (fun t => t == computeTodayStr env now apiTz utcOff) times with
  | some i => rfl
  | none =>
    have h1 : (times[1]? == some (computeTodayStr env now apiTz utcOff)) = false := by
      cases h01 : times[1]? with
      | none => rfl
      | some y =>
        rw [beq_eq_false_iff_ne]
        intro hcon
        have hy : y ∈ times := List.getElem?_mem h01
        have hpy := findIndex_eq_none_iff.mp hf y hy
        rw [Option.some.injEq] at hcon
        rw [hcon] at hpy
        simp at hpy
    have hcond : heurCond env now times apiTz utcOff = false := by
      unfold heurCond
      rw [h1, Bool.and_false]
    simp [hcond]

end WeatherWidget
